import Mathlib

/-!
Shallow embedding of `src/sound_level_monitor.py`: a sound-level monitor
that classifies microphone loudness into four bands and changes the desktop
wallpaper on band transitions.  Python floats appearing as decibel values are
modelled by the type `DBVal` (negative infinity, NaN, or a finite rational);
the real-valued mathematics of `rms_to_dbfs` is modelled over `ℝ`/`EReal`.
Side effects (console prints, platform wallpaper calls) are modelled as an
explicit event list; the filesystem, the random pick and the platform are
explicit parameters.
-/

namespace SoundMonitor

/-- Display colors from `colorama.Fore` used by `classify_db`. -/
inductive Color where
  | green
  | yellow
  | magenta
  | red
deriving DecidableEq, Repr

/-- A Python float in decibel position: negative infinity (`-math.inf`),
NaN, or a finite value (modelled as a rational). -/
inductive DBVal where
  | negInf
  | nan
  | finite (q : ℚ)
deriving DecidableEq, Repr

/-- IEEE-754 `<=` of a decibel value against a finite threshold:
`-inf <= t` is true, `nan <= t` is false, and finite values compare
numerically.  This is the comparison Python performs in `classify_db`. -/
def dbLe : DBVal → ℚ → Bool
  | .negInf, _ => true
  | .nan, _ => false
  | .finite q, t => decide (q ≤ t)

/-- The `THRESHOLDS` dict of the source (line 35): sound classification
thresholds in dBFS. -/
def THRESHOLDS : List (String × ℚ) :=
  [("quiet", -40), ("moderate", -20), ("loud", -8)]

/-- Dict access `THRESHOLDS[k]`; the three keys used are all present, so the
`getD 0` default is never taken. -/
def thresholdOf (k : String) : ℚ :=
  (THRESHOLDS.lookup k).getD 0

/-- `classify_db` (source lines 48-56): the if/elif chain mapping a decibel
value to a band label and a display color. -/
def classify_db (db_value : DBVal) : String × Color :=
  if dbLe db_value (thresholdOf "quiet") then ("Quiet", Color.green)
  else if dbLe db_value (thresholdOf "moderate") then ("Moderate", Color.yellow)
  else if dbLe db_value (thresholdOf "loud") then ("Loud", Color.magenta)
  else ("Very Loud", Color.red)

/-- `rms_to_dbfs` (source lines 42-45): `-inf` for non-positive RMS, else
`20 * log10(rms / ref)`, with default reference 1.0.  Modelled over the
reals, with `EReal` for the infinite result. -/
noncomputable def rms_to_dbfs (rms : ℝ) (ref : ℝ := 1) : EReal :=
  if rms ≤ 0 then ⊥ else ((20 * Real.logb 10 (rms / ref) : ℝ) : EReal)

/-- `BASE_PATH` (source line 26). -/
def BASE_PATH : String := "wallpapers"

/-- `os.path.join` on a POSIX system for the plain relative components used
by this program. -/
def pathJoin (a b : String) : String := a ++ "/" ++ b

/-- The `CATEGORIES` dict (source lines 27-32), mapping each band label to
its wallpaper folder. -/
def CATEGORIES : List (String × String) :=
  [("Quiet", pathJoin BASE_PATH "quiet"),
   ("Moderate", pathJoin BASE_PATH "moderate"),
   ("Loud", pathJoin BASE_PATH "loud"),
   ("Very Loud", pathJoin BASE_PATH "very_loud")]

/-- A directory entry as returned by `os.listdir`: a bare name, which may
name a regular file or a subdirectory (`os.listdir` does not distinguish,
and the source never checks). -/
structure DirEntry where
  name : String
  isDir : Bool
deriving DecidableEq, Repr

/-- Python `s.endswith(pat)`, as a suffix test on the character lists. -/
def pyEndsWith (s : String) (pat : String) : Bool :=
  pat.data.isSuffixOf s.data

/-- Python `s.lower()` (ASCII case folding, which is all the extension
allow-list needs). -/
def pyLower (s : String) : String :=
  String.mk (s.data.map Char.toLower)

/-- The extension filter of `get_random_wallpaper` (source line 65):
`f.lower().endswith(('.jpg', '.jpeg', '.png', '.bmp'))`. -/
def allowedImage (f : String) : Bool :=
  pyEndsWith (pyLower f) ".jpg" || pyEndsWith (pyLower f) ".jpeg" ||
  pyEndsWith (pyLower f) ".png" || pyEndsWith (pyLower f) ".bmp"

/-- Observable effects of the program, in order of emission: console
warnings and prints, and the three platform wallpaper calls. -/
inductive Ev where
  | folderWarn (folder : String)
  | noImagesWarn (folder : String)
  | bandChangePrint (label : String) (db : DBVal)
  | warnNotFound (path : String)
  | winCall (path : String)
  | macCall (path : String)
  | linuxCall (path : String)
  | unsupportedWarn
  | errorLogged (msg : String)
deriving DecidableEq, Repr

/-- True exactly on the three platform wallpaper-call events. -/
def Ev.isPlatformCall : Ev → Bool
  | .winCall _ => true
  | .macCall _ => true
  | .linuxCall _ => true
  | _ => false

/-- Number of platform wallpaper calls in an event list. -/
def callCount (evs : List Ev) : Nat :=
  (evs.filter Ev.isPlatformCall).length

/-- `get_random_wallpaper` (source lines 59-70).  The filesystem is passed
explicitly: `none` models a missing folder (`os.path.exists` false), `some
entries` models the `os.listdir` result.  `random.choice` over the filtered
list is modelled by an arbitrary index `pick` taken modulo the list length,
so the theorems quantify over every possible random outcome.  Returns the
chosen path (or `none`) together with the printed warnings. -/
def get_random_wallpaper (folder : String) (listing : Option (List DirEntry))
    (pick : Nat) : Option String × List Ev :=
  match listing with
  | none => (none, [Ev.folderWarn folder])
  | some entries =>
    let files := entries.filter (fun e => allowedImage e.name)
    if files = [] then (none, [Ev.noImagesWarn folder])
    else
      let choice := files.getD (pick % files.length) (DirEntry.mk "" false)
      (some (pathJoin folder choice.name), [])

/-- `platform.system()` outcomes distinguished by `set_wallpaper`. -/
inductive Platform where
  | windows
  | darwin
  | linux
  | other (name : String)
deriving DecidableEq, Repr

/-- `os.path.abspath`; paths are modelled as-is (no working directory in
the model), so this is the identity. -/
def os_path_abspath (p : String) : String := p

/-- The body of the `try:` block in `set_wallpaper` (source lines 82-90):
the events it emits, together with the exception escaping it, if any.
Only the platform wallpaper call can raise (`callErr`); the unsupported-OS
branch performs no call and cannot raise. -/
def tryBlock (system : Platform) (absPath : String) (callErr : Option String) :
    List Ev × Option String :=
  match system with
  | .windows => ([Ev.winCall absPath], callErr)
  | .darwin => ([Ev.macCall absPath], callErr)
  | .linux => ([Ev.linuxCall absPath], callErr)
  | .other _ => ([Ev.unsupportedWarn], none)

/-- `set_wallpaper` (source lines 73-92).  `fileExists` models
`os.path.exists`; `callErr` models an exception raised by the platform
call.  The `except` clause turns any escaping exception into a logged
message, so the function is total: no error reaches the caller. -/
def set_wallpaper (image_path : String) (system : Platform)
    (fileExists : String → Bool) (callErr : Option String) : List Ev :=
  let abs_path := os_path_abspath image_path
  if fileExists abs_path = false then [Ev.warnNotFound abs_path]
  else
    let r := tryBlock system abs_path callErr
    match r.2 with
    | none => r.1
    | some e => r.1 ++ [Ev.errorLogged ("Error changing wallpaper: " ++ e)]

/-- The environment of one monitor-loop iteration: the filesystem (folder
path to `os.listdir` result, `none` when missing), the random pick, the
platform, an exception the platform call would raise, and file existence
at apply time. -/
structure Env where
  fs : String → Option (List DirEntry)
  pick : Nat
  system : Platform
  callErr : Option String
  fileExists : String → Bool

/-- The `if random_wall: set_wallpaper(random_wall)` step of the loop body
(source lines 125-126): apply the selected wallpaper when there is one. -/
def applyPart (env : Env) (sel : Option String) : List Ev :=
  match sel with
  | none => []
  | some p => set_wallpaper p env.system env.fileExists env.callErr

/-- One iteration of the monitor loop body (source lines 118-126) on an
already-computed decibel value: classify, and on a band change update
`current_label`, print the change, invoke the wallpaper selector and, if
it returns a path, the applier.  Returns `none` on a `KeyError` in the
`CATEGORIES[label]` lookup; otherwise the new `current_label`, the emitted
events, and the number of wallpaper-selector invocations. -/
def monitorStep (env : Env) (current : Option String) (db : DBVal) :
    Option (Option String × List Ev × Nat) :=
  let label := (classify_db db).1
  if current = some label then some (current, [], 0)
  else
    match CATEGORIES.lookup label with
    | none => none
    | some wallpaper_folder =>
      let sel := get_random_wallpaper wallpaper_folder (env.fs wallpaper_folder) env.pick
      some (some label, Ev.bandChangePrint label db :: (sel.2 ++ applyPart env sel.1), 1)

/-- The monitor loop run over a finite stream of decibel values, threading
`current_label` and concatenating events and selector-invocation counts. -/
def monitorRun (env : Env) (current : Option String) :
    List DBVal → Option (Option String × List Ev × Nat)
  | [] => some (current, [], 0)
  | db :: rest =>
    match monitorStep env current db with
    | none => none
    | some (st, evs, n) =>
      match monitorRun env st rest with
      | none => none
      | some (st2, evs2, n2) => some (st2, evs ++ evs2, n + n2)

/-- The band labels of the band-change prints in an event list, in order. -/
def bandChanges (evs : List Ev) : List String :=
  evs.filterMap fun e =>
    match e with
    | Ev.bandChangePrint l _ => some l
    | _ => none

/-- A concrete environment for the closed scenario runs: every wallpaper
folder is missing, the platform is Linux, the platform call succeeds. -/
def demoEnv : Env :=
  Env.mk (fun _ => none) 0 Platform.linux none (fun _ => true)

/-- The decibel stream of the spec scenario, as finite float values. -/
def demoStream : List DBVal :=
  [DBVal.finite (-50), DBVal.finite (-50), DBVal.finite (-15),
   DBVal.finite (-15), DBVal.finite (-5)]

/-- The `quiet` threshold is -40 dBFS. -/
theorem thresholdOf_quiet : thresholdOf "quiet" = -40 := by decide

/-- The `moderate` threshold is -20 dBFS. -/
theorem thresholdOf_moderate : thresholdOf "moderate" = -20 := by decide

/-- The `loud` threshold is -8 dBFS. -/
theorem thresholdOf_loud : thresholdOf "loud" = -8 := by decide

/-- On finite values the classifier chain is the numeric comparison
chain. -/
theorem classify_db_finite (d : ℚ) : classify_db (DBVal.finite d) =
    if d ≤ -40 then ("Quiet", Color.green)
    else if d ≤ -20 then ("Moderate", Color.yellow)
    else if d ≤ -8 then ("Loud", Color.magenta)
    else ("Very Loud", Color.red) := by
  simp only [classify_db, thresholdOf_quiet, thresholdOf_moderate, thresholdOf_loud, dbLe,
    decide_eq_true_eq]

/-- Every classifier output label is one of the four band labels. -/
theorem classify_label_mem (v : DBVal) :
    (classify_db v).1 = "Quiet" ∨ (classify_db v).1 = "Moderate" ∨
    (classify_db v).1 = "Loud" ∨ (classify_db v).1 = "Very Loud" := by
  cases v with
  | negInf => exact Or.inl rfl
  | nan => exact Or.inr (Or.inr (Or.inr rfl))
  | finite q =>
    rw [classify_db_finite]
    split_ifs <;> simp

/-- Every classifier output label is a key of `CATEGORIES`. -/
theorem lookup_classify_isSome (v : DBVal) :
    (CATEGORIES.lookup (classify_db v).1).isSome = true := by
  rcases classify_label_mem v with h | h | h | h <;> rw [h] <;> decide

/-- `List.getD` at an in-range index is a member of the list. -/
theorem getD_mem {α : Type} (l : List α) (i : Nat) (d : α) (h : i < l.length) :
    l.getD i d ∈ l := by
  induction l generalizing i with
  | nil => simp at h
  | cons a t ih =>
    cases i with
    | zero => simp
    | succ n =>
      have hn : n < t.length := by simpa using h
      simpa using Or.inr (ih n hn)

/-- A non-call event at the head does not change `callCount`. -/
theorem callCount_cons_nonCall (e : Ev) (l : List Ev)
    (h : Ev.isPlatformCall e = false) : callCount (e :: l) = callCount l := by
  simp [callCount, List.filter_cons, h]

/-- The wallpaper selector emits no platform calls. -/
theorem callCount_selector (folder : String) (listing : Option (List DirEntry))
    (pick : Nat) : callCount (get_random_wallpaper folder listing pick).2 = 0 := by
  cases listing with
  | none => rfl
  | some es =>
    simp only [get_random_wallpaper]
    split_ifs <;> rfl

/-- The monitor loop body never fails: the `CATEGORIES` lookup always
succeeds. -/
theorem monitorStep_total (env : Env) (cur : Option String) (db : DBVal) :
    (monitorStep env cur db).isSome = true := by
  by_cases h : cur = some (classify_db db).1
  · simp [monitorStep, h]
  · obtain ⟨f, hf⟩ := Option.isSome_iff_exists.mp (lookup_classify_isSome db)
    simp only [monitorStep]
    rw [if_neg h, hf]
    rfl

/-! ## Claim theorems -/

/-- C1: for every (finite, real-valued) decibel value `d`, `classify_db`
maps `d` to exactly one band with exact boundaries: `d <= -40` yields
Quiet, `-40 < d <= -20` yields Moderate, `-20 < d <= -8` yields Loud, and
`d > -8` yields Very Loud; no value is left unclassified (the output is
always one of the four bands). -/
theorem classify_db_band_partition (d : ℚ) :
    (d ≤ -40 → (classify_db (DBVal.finite d)).1 = "Quiet") ∧
    (-40 < d → d ≤ -20 → (classify_db (DBVal.finite d)).1 = "Moderate") ∧
    (-20 < d → d ≤ -8 → (classify_db (DBVal.finite d)).1 = "Loud") ∧
    (-8 < d → (classify_db (DBVal.finite d)).1 = "Very Loud") ∧
    ((classify_db (DBVal.finite d)).1 = "Quiet" ∨
     (classify_db (DBVal.finite d)).1 = "Moderate" ∨
     (classify_db (DBVal.finite d)).1 = "Loud" ∨
     (classify_db (DBVal.finite d)).1 = "Very Loud") := by
  refine ⟨?_, ?_, ?_, ?_, ?_⟩
  · intro h
    rw [classify_db_finite, if_pos h]
  · intro h1 h2
    rw [classify_db_finite, if_neg (not_le.mpr h1), if_pos h2]
  · intro h1 h2
    rw [classify_db_finite, if_neg (by linarith : ¬ d ≤ -40),
      if_neg (not_le.mpr h1), if_pos h2]
  · intro h
    rw [classify_db_finite, if_neg (by linarith : ¬ d ≤ -40),
      if_neg (by linarith : ¬ d ≤ -20), if_neg (not_le.mpr h)]
  · rw [classify_db_finite]
    split_ifs <;> simp

/-- Witness for C1 at the concrete inputs -50, -30, -10 and 0. -/
theorem classify_db_band_partition_witness :
    (classify_db (DBVal.finite (-50))).1 = "Quiet" ∧
    (classify_db (DBVal.finite (-30))).1 = "Moderate" ∧
    (classify_db (DBVal.finite (-10))).1 = "Loud" ∧
    (classify_db (DBVal.finite 0)).1 = "Very Loud" :=
  ⟨(classify_db_band_partition (-50)).1 (by norm_num),
   (classify_db_band_partition (-30)).2.1 (by norm_num) (by norm_num),
   (classify_db_band_partition (-10)).2.2.1 (by norm_num) (by norm_num),
   (classify_db_band_partition 0).2.2.2.1 (by norm_num)⟩

/-- C2: for every RMS value `r > 0`, `rms_to_dbfs r` with the default
reference 1.0 equals `20 * log10 r`; for every `r <= 0` it is negative
infinity. -/
theorem rms_to_dbfs_spec (r : ℝ) :
    (0 < r → rms_to_dbfs r = ((20 * Real.logb 10 r : ℝ) : EReal)) ∧
    (r ≤ 0 → rms_to_dbfs r = ⊥) := by
  constructor
  · intro h
    rw [rms_to_dbfs, if_neg (not_le.mpr h), div_one]
  · intro h
    rw [rms_to_dbfs, if_pos h]

/-- Witness for C2 at the concrete inputs 1 and 0. -/
theorem rms_to_dbfs_spec_witness :
    rms_to_dbfs 1 = ((20 * Real.logb 10 1 : ℝ) : EReal) ∧ rms_to_dbfs 0 = ⊥ :=
  ⟨(rms_to_dbfs_spec 1).1 one_pos, (rms_to_dbfs_spec 0).2 le_rfl⟩

/-- C9: NaN fails every threshold comparison, so `classify_db` falls
through to the final else branch and returns Very Loud (with its red
display color); in particular the classifier is total on non-real
inputs. -/
theorem classify_db_nan_very_loud :
    (∀ t : ℚ, dbLe DBVal.nan t = false) ∧
    classify_db DBVal.nan = ("Very Loud", Color.red) :=
  ⟨fun _ => rfl, by decide⟩

/-- C10: every band label `classify_db` can return is a key of the
`CATEGORIES` folder map, so the `CATEGORIES[label]` lookup in the monitor
loop never fails: the loop body is total. -/
theorem categories_covers_classifier :
    (∀ v : DBVal, (CATEGORIES.lookup (classify_db v).1).isSome = true) ∧
    (∀ (env : Env) (cur : Option String) (db : DBVal),
      (monitorStep env cur db).isSome = true) :=
  ⟨lookup_classify_isSome, monitorStep_total⟩

/-- C3 counterexample: `os.listdir` also returns subdirectories and
`get_random_wallpaper` never checks `isfile`, so for a Loud folder whose
only entry is a subdirectory named `shots.png`, the selector returns that
path even though it names a directory, refuting the "(not a directory)"
part of the claim. -/
theorem wallpaper_select_dir_counterexample :
    (get_random_wallpaper (pathJoin BASE_PATH "loud")
        (some [DirEntry.mk "shots.png" true]) 0).1
      = some (pathJoin (pathJoin BASE_PATH "loud") "shots.png") ∧
    (DirEntry.mk "shots.png" true).isDir = true := by
  decide

/-- C3 (amended): whenever `get_random_wallpaper` returns a path, that
path is the requested folder joined with one of the folder's directory
entries whose name has an allowed image extension (jpg, jpeg, png, bmp,
case-insensitively) — the entry may however be a subdirectory; and for a
Loud folder containing exactly `a.png` and `b.txt`, every random pick
returns `a.png`. -/
theorem wallpaper_select_in_folder (folder : String) (es : List DirEntry)
    (pick : Nat) (p : String)
    (h : (get_random_wallpaper folder (some es) pick).1 = some p) :
    (∃ e, e ∈ es ∧ allowedImage e.name = true ∧ p = pathJoin folder e.name) ∧
    (∀ k, (get_random_wallpaper (pathJoin BASE_PATH "loud")
        (some [DirEntry.mk "a.png" false, DirEntry.mk "b.txt" false]) k).1
      = some (pathJoin (pathJoin BASE_PATH "loud") "a.png")) := by
  constructor
  · simp only [get_random_wallpaper] at h
    by_cases hnil : es.filter (fun e => allowedImage e.name) = []
    · rw [if_pos hnil] at h
      exact absurd h (by simp)
    · rw [if_neg hnil] at h
      have hlen : 0 < (es.filter (fun e => allowedImage e.name)).length :=
        List.length_pos.mpr hnil
      have hmem : (es.filter (fun e => allowedImage e.name)).getD
          (pick % (es.filter (fun e => allowedImage e.name)).length)
          (DirEntry.mk "" false) ∈ es.filter (fun e => allowedImage e.name) :=
        getD_mem _ _ _ (Nat.mod_lt _ hlen)
      refine ⟨_, List.mem_of_mem_filter hmem, ?_, ?_⟩
      · simpa using List.of_mem_filter hmem
      · exact (Option.some.inj h).symm
  · intro k
    have hfil : ([DirEntry.mk "a.png" false, DirEntry.mk "b.txt" false].filter
        (fun e => allowedImage e.name)) = [DirEntry.mk "a.png" false] := by decide
    simp [get_random_wallpaper, hfil, Nat.mod_one]

/-- Witness for C3 at a folder containing the single file `x.jpg`. -/
theorem wallpaper_select_in_folder_witness :
    (∃ e, e ∈ [DirEntry.mk "x.jpg" false] ∧ allowedImage e.name = true ∧
      "f/x.jpg" = pathJoin "f" e.name) ∧
    (∀ k, (get_random_wallpaper (pathJoin BASE_PATH "loud")
        (some [DirEntry.mk "a.png" false, DirEntry.mk "b.txt" false]) k).1
      = some (pathJoin (pathJoin BASE_PATH "loud") "a.png")) :=
  wallpaper_select_in_folder "f" [DirEntry.mk "x.jpg" false] 0 "f/x.jpg" (by decide)

/-- C4: a loop iteration whose classified band differs from the current
band invokes the wallpaper selector exactly once and updates the current
band to the new band; an iteration classified into the current band makes
no selection attempt and leaves the current band (and the console)
unchanged. -/
theorem monitor_step_transition_count (env : Env) (cur : Option String)
    (db : DBVal) :
    (cur = some (classify_db db).1 → monitorStep env cur db = some (cur, [], 0)) ∧
    (cur ≠ some (classify_db db).1 →
      ∃ evs, monitorStep env cur db = some (some (classify_db db).1, evs, 1)) := by
  constructor
  · intro h
    simp [monitorStep, h]
  · intro h
    obtain ⟨f, hf⟩ := Option.isSome_iff_exists.mp (lookup_classify_isSome db)
    refine ⟨Ev.bandChangePrint (classify_db db).1 db ::
      ((get_random_wallpaper f (env.fs f) env.pick).2 ++
        applyPart env (get_random_wallpaper f (env.fs f) env.pick).1), ?_⟩
    simp only [monitorStep]
    rw [if_neg h, hf]

/-- Witness for C4: a repeated Quiet block is a no-op, a fresh Quiet block
triggers exactly one selection. -/
theorem monitor_step_transition_count_witness :
    monitorStep demoEnv (some "Quiet") (DBVal.finite (-50))
      = some (some "Quiet", [], 0) ∧
    (∃ evs, monitorStep demoEnv none (DBVal.finite (-50))
      = some (some (classify_db (DBVal.finite (-50))).1, evs, 1)) :=
  ⟨(monitor_step_transition_count demoEnv (some "Quiet") (DBVal.finite (-50))).1
      (by decide),
   (monitor_step_transition_count demoEnv none (DBVal.finite (-50))).2
      (by decide)⟩

/-- C5 counterexample: run from the loop's initial state
(`current_label = None`), the stream [-50, -50, -15, -15, -5] produces
three change events (Quiet at sample 1, Loud at sample 3, Very Loud at
sample 5), not two, and the third sample classifies as Loud (since
-15 > -20), not Moderate. -/
theorem monitor_scenario_counterexample :
    (monitorRun demoEnv none demoStream).map (fun r => bandChanges r.2.1)
      = some ["Quiet", "Loud", "Very Loud"] ∧
    ¬ (monitorRun demoEnv none demoStream).map (fun r => (bandChanges r.2.1).length)
      = some 2 ∧
    (classify_db (DBVal.finite (-15))).1 = "Loud" := by
  decide

/-- C5 (amended): from the loop's initial state the stream
[-50, -50, -15, -15, -5] yields exactly three wallpaper-change events, at
samples 1 (Quiet), 3 (Loud) and 5 (Very Loud); equivalently, when the
current band already equals Quiet it yields exactly two, at the third
sample (band Loud) and the fifth sample (band Very Loud), as the
per-prefix event counts 0, 0, 1, 1, 2 show. -/
theorem monitor_scenario_amended :
    (monitorRun demoEnv none demoStream).map (fun r => bandChanges r.2.1)
      = some ["Quiet", "Loud", "Very Loud"] ∧
    (monitorRun demoEnv (some "Quiet") demoStream).map (fun r => bandChanges r.2.1)
      = some ["Loud", "Very Loud"] ∧
    (monitorRun demoEnv (some "Quiet") (demoStream.take 1)).map
      (fun r => (bandChanges r.2.1).length) = some 0 ∧
    (monitorRun demoEnv (some "Quiet") (demoStream.take 2)).map
      (fun r => (bandChanges r.2.1).length) = some 0 ∧
    (monitorRun demoEnv (some "Quiet") (demoStream.take 3)).map
      (fun r => (bandChanges r.2.1).length) = some 1 ∧
    (monitorRun demoEnv (some "Quiet") (demoStream.take 4)).map
      (fun r => (bandChanges r.2.1).length) = some 1 ∧
    (monitorRun demoEnv (some "Quiet") (demoStream.take 5)).map
      (fun r => (bandChanges r.2.1).length) = some 2 := by
  decide

/-- C6: for a missing folder, or a folder with no entry of allowed image
extension, `get_random_wallpaper` returns `none` after emitting exactly
one warning (and raises nothing, being total); and whenever the selector
for the folder the loop looks up comes back empty — for any filesystem,
so including an existing folder with no allowed images — the loop
iteration still succeeds with no platform wallpaper call, the applier
contributing no events at all: the wallpaper change is skipped for that
cycle and monitoring continues. -/
theorem selector_missing_safe (folder : String) (pick : Nat) :
    get_random_wallpaper folder none pick = (none, [Ev.folderWarn folder]) ∧
    (∀ es : List DirEntry, es.filter (fun e => allowedImage e.name) = [] →
      get_random_wallpaper folder (some es) pick
        = (none, [Ev.noImagesWarn folder])) ∧
    (∀ (env : Env) (cur : Option String) (db : DBVal) (f : String),
      CATEGORIES.lookup (classify_db db).1 = some f →
      (get_random_wallpaper f (env.fs f) env.pick).1 = none →
      ∃ r, monitorStep env cur db = some r ∧ callCount r.2.1 = 0 ∧
        (cur ≠ some (classify_db db).1 →
          r = (some (classify_db db).1,
            Ev.bandChangePrint (classify_db db).1 db ::
              (get_random_wallpaper f (env.fs f) env.pick).2, 1))) := by
  refine ⟨rfl, ?_, ?_⟩
  · intro es hes
    simp [get_random_wallpaper, hes]
  · intro env cur db f h1 h2
    by_cases h : cur = some (classify_db db).1
    · exact ⟨(cur, [], 0), by simp [monitorStep, h], rfl, fun hc => absurd h hc⟩
    · refine ⟨(some (classify_db db).1,
        Ev.bandChangePrint (classify_db db).1 db ::
          (get_random_wallpaper f (env.fs f) env.pick).2, 1), ?_, ?_, fun _ => rfl⟩
      · simp only [monitorStep]
        rw [if_neg h, h1]
        simp only [h2, applyPart, List.append_nil]
      · show callCount (Ev.bandChangePrint (classify_db db).1 db ::
          (get_random_wallpaper f (env.fs f) env.pick).2) = 0
        rw [callCount_cons_nonCall (Ev.bandChangePrint (classify_db db).1 db) _ rfl,
          callCount_selector]

/-- Witness for C6 at the Quiet folder, a text-only listing, and a
concrete loop iteration in which the Quiet folder exists but holds no
image file. -/
theorem selector_missing_safe_witness :
    get_random_wallpaper "wallpapers/quiet" none 0
      = (none, [Ev.folderWarn "wallpapers/quiet"]) ∧
    get_random_wallpaper "wallpapers/quiet" (some [DirEntry.mk "b.txt" false]) 0
      = (none, [Ev.noImagesWarn "wallpapers/quiet"]) ∧
    (∃ r, monitorStep (Env.mk (fun _ => some [DirEntry.mk "b.txt" false]) 0
        Platform.linux none (fun _ => true)) none (DBVal.finite (-50))
      = some r ∧ callCount r.2.1 = 0 ∧
      ((none : Option String) ≠ some (classify_db (DBVal.finite (-50))).1 →
        r = (some (classify_db (DBVal.finite (-50))).1,
          Ev.bandChangePrint (classify_db (DBVal.finite (-50))).1
              (DBVal.finite (-50)) ::
            (get_random_wallpaper "wallpapers/quiet"
              ((Env.mk (fun _ => some [DirEntry.mk "b.txt" false]) 0
                Platform.linux none (fun _ => true)).fs "wallpapers/quiet")
              (Env.mk (fun _ => some [DirEntry.mk "b.txt" false]) 0
                Platform.linux none (fun _ => true)).pick).2, 1))) :=
  ⟨(selector_missing_safe "wallpapers/quiet" 0).1,
   (selector_missing_safe "wallpapers/quiet" 0).2.1 [DirEntry.mk "b.txt" false]
      (by decide),
   (selector_missing_safe "wallpapers/quiet" 0).2.2
      (Env.mk (fun _ => some [DirEntry.mk "b.txt" false]) 0 Platform.linux none
        (fun _ => true)) none (DBVal.finite (-50)) "wallpapers/quiet"
      (by decide) (by decide)⟩

/-- C7: `set_wallpaper` never propagates an error: if the path does not
exist it only reports the problem and performs no platform call, and any
exception raised by the platform call is caught and turned into a logged
message appended after the events of the `try` block, so the function
always returns to its caller (it is total by construction). -/
theorem set_wallpaper_no_raise (p : String) (sys : Platform)
    (fe : String → Bool) (err : Option String) :
    (fe (os_path_abspath p) = false →
      set_wallpaper p sys fe err = [Ev.warnNotFound (os_path_abspath p)] ∧
      callCount (set_wallpaper p sys fe err) = 0) ∧
    (∀ e, (tryBlock sys (os_path_abspath p) err).2 = some e →
      fe (os_path_abspath p) = true →
      set_wallpaper p sys fe err
        = (tryBlock sys (os_path_abspath p) err).1
          ++ [Ev.errorLogged ("Error changing wallpaper: " ++ e)]) := by
  constructor
  · intro h
    refine ⟨by simp [set_wallpaper, h], ?_⟩
    simp [set_wallpaper, h, callCount, List.filter, Ev.isPlatformCall]
  · intro e he hfe
    simp [set_wallpaper, hfe, he]

/-- Witness for C7: a missing file on Windows, and a raising platform
call on Windows. -/
theorem set_wallpaper_no_raise_witness :
    (set_wallpaper "x.png" Platform.windows (fun _ => false) none
        = [Ev.warnNotFound (os_path_abspath "x.png")] ∧
      callCount (set_wallpaper "x.png" Platform.windows (fun _ => false) none)
        = 0) ∧
    set_wallpaper "y.png" Platform.windows (fun _ => true) (some "boom")
      = (tryBlock Platform.windows (os_path_abspath "y.png") (some "boom")).1
        ++ [Ev.errorLogged ("Error changing wallpaper: " ++ "boom")] :=
  ⟨(set_wallpaper_no_raise "x.png" Platform.windows (fun _ => false) none).1 rfl,
   (set_wallpaper_no_raise "y.png" Platform.windows (fun _ => true)
      (some "boom")).2 "boom" rfl rfl⟩

end SoundMonitor
